import Mathlib

/-
Verification of the AgentCon demo pipeline orchestrator.

Shallow embedding of the repository sources:
  agentcon_demo.py                    (top-level demo, namespace Demo)
  workshop/step7_image_mode/...       (namespace Step7)
  refactored/agentcon_demo_refactored.py (namespace Refactored)

External collaborators (the hosted completion engine, the file system and
the process environment) are modelled as explicit oracle parameters, so
every run is a pure function of its oracles.
-/

/-- MCPStreamableHTTPTool: the documentation-grounding tool handle.
Constructed once per process in every variant. -/
structure MCPTool where
  name : String
  url : String
deriving DecidableEq, Repr

/-- OpenAIChatClient: the shared completion-engine handle. -/
structure ChatClient where
  api_key : String
  model_id : String
deriving DecidableEq, Repr

/-- ChatAgent: a bound pairing of instructions, the shared completion
handle, a name and a tool list, exactly the keyword arguments passed to
the ChatAgent constructor in the sources. -/
structure ChatAgent where
  chat_client : ChatClient
  instructions : String
  name : String
  tools : List MCPTool
deriving DecidableEq, Repr

/-- Image payload variants built in main: UriContent for remote sources,
DataContent for locally read bytes. -/
inductive ImagePayload
  | uriContent (uri : String) (media_type : String)
  | dataContent (data : List UInt8) (media_type : String)
deriving DecidableEq, Repr

/-- What a stage invocation receives: the architecture text for textual
stages, the image payload for the diagram interpreter. -/
inductive Payload
  | text (s : String)
  | image (img : ImagePayload)
deriving DecidableEq, Repr

/-- The failure kinds a run can surface.  In the Python sources these are
raw exceptions: a KeyError from an unregistered role lookup, an OSError
from a local image read, and whatever the completion engine raises. -/
inductive DemoError
  | unknownRole (roleId : String)
  | imageLoadFailure (path : String)
  | invocationFailure (msg : String)
deriving DecidableEq, Repr

/-- The completion-engine oracle.  Given the invoked agent and the prompt
payload it either fails (the raised exception message) or yields the
finite ordered sequence of chunk texts of the response stream.  A
non-streamed run call is modelled by the concatenation of the same
sequence (see response_text). -/
structure Env where
  respond : ChatAgent → Payload → Except String (List String)

/-- One recorded stage invocation: which agent was invoked with which
prompt payload, in run order. -/
structure StageCall where
  agent : ChatAgent
  payload : Payload
deriving DecidableEq, Repr

/-- The chunk texts actually forwarded to the sink by the streaming loops
in agentcon_demo.py (lines 118-124, 134-138, 160-164): a chunk is printed
and appended only when chunk.text is truthy, so empty (or absent) chunk
texts are skipped. -/
def forwarded_chunks (chunks : List String) : List String :=
  chunks.filter (fun c => c ≠ "")

/-- The aggregated stage text: the join of the appended parts, exactly
the join of the forwarded chunks. -/
def aggregate (chunks : List String) : String :=
  String.join (forwarded_chunks chunks)

/-- Text of a non-streamed response (last_text in the sources): the full
response text, identified with the concatenation of the chunk texts the
engine would have streamed for it. -/
def response_text (chunks : List String) : String :=
  String.join chunks

/-- Python str.lower, modelled with the per-character mapping Char.toLower. -/
def pyLower (s : String) : String :=
  ⟨s.data.map Char.toLower⟩

namespace Demo

/-- AgentRole from agentcon_demo.py lines 40-46. -/
inductive AgentRole
  | diagram_interpreter
  | critic
  | fixer
  | visualizer
  | iac_generator
deriving DecidableEq, Repr

/-- The .value string of each enum member. -/
def AgentRole.value : AgentRole → String
  | .diagram_interpreter => "diagram_interpreter"
  | .critic => "critic"
  | .fixer => "fixer"
  | .visualizer => "visualizer"
  | .iac_generator => "iac_generator"

/-- The prompts dict of AgentFactory.create_agent (lines 64-80). -/
def prompts : AgentRole → String
  | .diagram_interpreter =>
      "Convert diagram to text. List: services, connections, access (public/private). Azure assumed. Be concise."
  | .critic =>
      "Critique Azure architecture: security issues, wrong services, missing best practices. Use Microsoft Learn MCP. Keep brief with bullets."
  | .fixer =>
      "Fix architecture: apply Well-Architected, use managed services, secure networking. Use Microsoft Learn MCP. Output improved text."
  | .visualizer =>
      "Generate a Mermaid diagram in flowchart syntax showing the Azure architecture. Use this format:\n```mermaid\ngraph TB\n    A[Service Name] --> B[Another Service]\n    B --> C[Database]\n```\nUse proper Azure service names. Include all components and connections."
  | .iac_generator =>
      "Generate Bicep snippet. Use Microsoft Learn MCP to verify types/versions. Keep short."

/-- AgentFactory (lines 49-60): holds the MCP tool and the chat client. -/
structure AgentFactory where
  mcp_tool : MCPTool
  chat_client : ChatClient
deriving DecidableEq, Repr

/-- AgentFactory.create_agent (lines 62-89):
tools = [self.mcp_tool] if role != AgentRole.VISUALIZER else []. -/
def AgentFactory.create_agent (f : AgentFactory) (role : AgentRole) : ChatAgent :=
  { chat_client := f.chat_client
    instructions := prompts role
    name := role.value
    tools := if role ≠ AgentRole.visualizer then [f.mcp_tool] else [] }

end Demo

/-- The concrete MCP tool handle opened in main (lines 183-186). -/
def microsoft_learn_tool : MCPTool :=
  { name := "microsoft_learn"
    url := "https://learn.microsoft.com/api/mcp?maxTokenBudget=3000" }

/-- A concrete chat client (model defaults from the environment reads in
AgentFactory.init). -/
def demo_chat_client : ChatClient :=
  { api_key := "test-key", model_id := "gpt-4o-mini" }

/-- The factory instance main builds inside the MCP scope. -/
def demoFactory : Demo.AgentFactory :=
  { mcp_tool := microsoft_learn_tool, chat_client := demo_chat_client }

namespace Demo

/-- Output of one workflow execution: the stage invocations in order, the
save_response_to_file calls (step name, content) in order, and the final
outcome (Python: normal return, or the propagated exception). -/
structure WorkflowOut where
  calls : List StageCall
  saved : List (String × String)
  result : Except DemoError Unit
deriving Repr

/-- Step 4 of run_sequential_workflow (lines 154-168): IaC generator,
streamed and aggregated, saved as step4_bicep. -/
def step4_iac (f : AgentFactory) (env : Env) (improved : String) : WorkflowOut :=
  let a := f.create_agent .iac_generator
  match env.respond a (.text improved) with
  | .error e => ⟨[⟨a, .text improved⟩], [], .error (.invocationFailure e)⟩
  | .ok chunks => ⟨[⟨a, .text improved⟩], [("step4_bicep", aggregate chunks)], .ok ()⟩

/-- Step 3 (lines 144-152): visualizer, non-streamed, saved as
step3_mermaid_diagram, then step 4 on the same improved text. -/
def step3_visualize (f : AgentFactory) (env : Env) (improved : String) : WorkflowOut :=
  let a := f.create_agent .visualizer
  match env.respond a (.text improved) with
  | .error e => ⟨[⟨a, .text improved⟩], [], .error (.invocationFailure e)⟩
  | .ok chunks =>
      let rest := step4_iac f env improved
      ⟨⟨a, .text improved⟩ :: rest.calls,
        ("step3_mermaid_diagram", response_text chunks) :: rest.saved,
        rest.result⟩

/-- The fixer prompt f-string of agentcon_demo.py line 135 (same string
as step7 line 141 and refactored line 224). -/
def fixer_input (architecture_text critique : String) : String :=
  "Original:\n" ++ architecture_text ++ "\n\nCritique:\n" ++ critique

/-- Step 2 (lines 128-142): fixer, streamed and aggregated, saved as
step2_fixer, then step 3 on the improved text. -/
def step2_fix (f : AgentFactory) (env : Env) (architecture_text critique : String) :
    WorkflowOut :=
  let a := f.create_agent .fixer
  let p : Payload := .text (fixer_input architecture_text critique)
  match env.respond a p with
  | .error e => ⟨[⟨a, p⟩], [], .error (.invocationFailure e)⟩
  | .ok chunks =>
      let improved := aggregate chunks
      let rest := step3_visualize f env improved
      ⟨⟨a, p⟩ :: rest.calls, ("step2_fixer", improved) :: rest.saved, rest.result⟩

/-- Step 1 (lines 111-126): critic, streamed and aggregated, saved as
step1_critic, then step 2 on the architecture text and the critique. -/
def step1_critic (f : AgentFactory) (env : Env) (architecture_text : String) : WorkflowOut :=
  let a := f.create_agent .critic
  match env.respond a (.text architecture_text) with
  | .error e => ⟨[⟨a, .text architecture_text⟩], [], .error (.invocationFailure e)⟩
  | .ok chunks =>
      let critique := aggregate chunks
      let rest := step2_fix f env architecture_text critique
      ⟨⟨a, .text architecture_text⟩ :: rest.calls,
        ("step1_critic", critique) :: rest.saved, rest.result⟩

/-- The architecture text taken from input_data on the text branch (the
callers only pass a text payload there). -/
def payload_text : Payload → String
  | .text s => s
  | .image _ => ""

/-- run_sequential_workflow (lines 92-172): optional step 0 (diagram
interpreter, non-streamed) when is_image, then steps 1 to 4. -/
def run_sequential_workflow (f : AgentFactory) (env : Env) (input_data : Payload)
    (is_image : Bool) : WorkflowOut :=
  if is_image then
    let interp := f.create_agent .diagram_interpreter
    match env.respond interp input_data with
    | .error e => ⟨[⟨interp, input_data⟩], [], .error (.invocationFailure e)⟩
    | .ok chunks =>
        let rest := step1_critic f env (response_text chunks)
        ⟨⟨interp, input_data⟩ :: rest.calls, rest.saved, rest.result⟩
  else
    step1_critic f env (payload_text input_data)

end Demo

/-- save_response_to_file filename scheme (agentcon_demo.py lines 29-37):
output_dir/step_name_timestamp.txt, the timestamp being the wall clock at
second granularity. -/
def save_filename (output_dir step_name timestamp : String) : String :=
  output_dir ++ "/" ++ step_name ++ "_" ++ timestamp ++ ".txt"

/-- save_response_to_file effect on the artifact store, the store being
modelled as an association list from filename to written content, most
recent write first. -/
def save_response_to_file (store : List (String × String))
    (step_name content output_dir timestamp : String) : List (String × String) :=
  (save_filename output_dir step_name timestamp, content) :: store

/-- Reading an artifact back through its filename. -/
def read_file (store : List (String × String)) (filename : String) : Option String :=
  store.lookup filename

/-- One pipeline run as the save calls see it: the run has an identity
and one wall-clock timestamp.  The source passes only step_name and
content to save_response_to_file; no run identifier exists in the code,
so the written location depends on the timestamp alone. -/
structure RunContext where
  run_id : String
  timestamp : String
deriving DecidableEq, Repr

/-- The location a save call of the given run writes a stage artifact to. -/
def run_artifact_location (r : RunContext) (step_name : String) : String :=
  save_filename "output" step_name r.timestamp

/-- Scheme check of main line 206:
image_path.startswith(("http://", "https://")), written on the character
lists of the two scheme literals. -/
def is_remote_uri (image_path : String) : Bool :=
  "http://".data.isPrefixOf image_path.data || "https://".data.isPrefixOf image_path.data

/-- The local file system oracle: the bytes of a readable file, or none
when the open or read raises. -/
def FileSys : Type := String → Option (List UInt8)

/-- Lines 205-212 of main: remote sources become a UriContent reference
without any local read; local paths are read into DataContent bytes, a
failed read raising before the workflow is entered. -/
def load_diagram_image (fs : FileSys) (image_path : String) : Except DemoError ImagePayload :=
  if is_remote_uri image_path then
    .ok (.uriContent image_path "image/png")
  else
    match fs image_path with
    | some image_data => .ok (.dataContent image_data "image/png")
    | none => .error (.imageLoadFailure image_path)

/-- The two environment variables read by main (lines 200-201). -/
structure OsEnv where
  use_image_mode_var : Option String
  architecture_image_path_var : Option String
deriving DecidableEq, Repr

namespace Demo

/-- Line 200: os.getenv("USE_IMAGE_MODE", "false").lower() == "true". -/
def use_image_mode (e : OsEnv) : Bool :=
  pyLower (e.use_image_mode_var.getD "false") == "true"

/-- Line 201: os.getenv("ARCHITECTURE_IMAGE_PATH", ""). -/
def image_path (e : OsEnv) : String :=
  e.architecture_image_path_var.getD ""

/-- The hardcoded default architecture text of main (lines 191-197). -/
def demo_architecture : String :=
  "\n    We have a 3-tier e-commerce application on Azure:\n    - Frontend: Virtual Machines running Node.js (public IPs)\n    - Backend: Virtual Machines running .NET APIs (public IPs)\n    - Database: Azure SQL Database (public endpoint enabled)\n    - Storage: Azure Storage Account (no encryption at rest)\n    "

/-- The input main settles on. -/
inductive SelectedInput
  | imageMode (path : String)
  | textMode (text : String)
deriving DecidableEq, Repr

/-- Line 203: if use_image_mode and image_path: image mode, else the text
branch on the hardcoded default.  An empty path string is falsy. -/
def select_input (e : OsEnv) : SelectedInput :=
  if use_image_mode e = true ∧ image_path e ≠ "" then .imageMode (image_path e)
  else .textMode demo_architecture

/-- The body of main inside the MCP scope (lines 187-216): mode
selection, the optional image load, then the sequential workflow. -/
def main_body (f : AgentFactory) (env : Env) (fs : FileSys) (e : OsEnv) : WorkflowOut :=
  match select_input e with
  | .imageMode p =>
      match load_diagram_image fs p with
      | .error err => ⟨[], [], .error err⟩
      | .ok diagram_image => run_sequential_workflow f env (.image diagram_image) true
  | .textMode t => run_sequential_workflow f env (.text t) false

end Demo

/-- Observable resource and stage events of one process run. -/
inductive RunEvent
  | acquireMCP
  | stageInvoked (name : String)
  | releaseMCP
deriving DecidableEq, Repr

/-- main of agentcon_demo.py (lines 175-216): the async-with statement
acquires the MCP connection before the factory exists and before any
stage, and releases it when the block exits, on the normal path and on
the exception path alike. -/
def Demo.main_run (client : ChatClient) (env : Env) (fs : FileSys) (e : OsEnv) :
    List RunEvent × Demo.WorkflowOut :=
  let f : Demo.AgentFactory := ⟨microsoft_learn_tool, client⟩
  let body := Demo.main_body f env fs e
  ([.acquireMCP] ++ body.calls.map (fun c => .stageInvoked c.agent.name) ++ [.releaseMCP],
    body)

namespace Step7

/-- The prompts dict of the step7 factory (workshop/step7_image_mode,
lines 22-54), keyed by role strings. -/
def prompts : List (String × String) :=
  [ ("diagram_interpreter",
      "You are an Architecture Diagram Interpreter.\nExtract a **detailed text description** of the Azure architecture from the image.\nIdentify:\n- Azure services shown (VMs, databases, networks, etc.)\n- Connections and data flow\n- Security configurations (public vs private)\n- Any annotations or notes\nOutput: Clear text description of the architecture."),
    ("critic",
      "You are an Azure Architecture Critic.\nReview for: security issues, wrong service choices, missing best practices.\n**Use the Microsoft Learn MCP tool** to cite official Azure documentation.\nKeep brief with bullet points and cite sources."),
    ("fixer",
      "You are an Azure Architecture Fixer.\nImprove the architecture by:\n- Applying Azure Well-Architected Framework\n- Using managed services over IaaS\n- Implementing secure-by-default networking\n**Use the Microsoft Learn MCP tool** to reference official guidance.\nOutput: improved architecture with documentation links."),
    ("visualizer",
      "You are a Mermaid Diagram Generator.\nGenerate a **valid Mermaid syntax** diagram of the Azure architecture.\nOutput ONLY valid Mermaid code wrapped in ```mermaid blocks."),
    ("iac_generator",
      "You are a Bicep IaC Generator.\nGenerate **Azure Bicep code** to deploy the improved architecture.\nInclude: Resource definitions, secure configurations, parameters.\n**Use Microsoft Learn MCP tool** for Bicep best practices.\nOutput: Production-ready Bicep code with comments.") ]

/-- The step7 factory (lines 14-20); the copilot-messages flag it also
carries is passed through to the agent constructor unchanged and plays no
role in tool attachment, so it is not represented. -/
structure AgentFactory where
  chat_client : ChatClient
  mcp_tool : MCPTool
deriving DecidableEq, Repr

/-- Step7 AgentFactory.create_agent (lines 56-67):
tools = [self.mcp_tool] if role not in ["visualizer", "diagram_interpreter"]
else [], and self.prompts[role] raises a KeyError (modelled unknownRole)
for a role string outside the dict. -/
def AgentFactory.create_agent (f : AgentFactory) (role : String) :
    Except DemoError ChatAgent :=
  let tools := if role ∉ (["visualizer", "diagram_interpreter"] : List String)
    then [f.mcp_tool] else []
  match prompts.lookup role with
  | none => .error (.unknownRole role)
  | some instructions =>
      .ok { chat_client := f.chat_client, instructions := instructions,
            name := role, tools := tools }

end Step7

namespace Refactored

/-- One entry of the declarative agent configuration. -/
structure RoleConfig where
  instructions : String
  uses_mcp : Bool
deriving DecidableEq, Repr

/-- Modelled from the spec: the contents of agent_prompts.yaml, loaded by
load_agent_config in the refactored variant but not present under src/.
Per the spec (sections 3, 4.1 and 6) it maps each of the five role ids to
instructions plus a grounding flag, the flag being true exactly for
critic, fixer and iac_generator. -/
def agent_prompts_yaml : List (String × RoleConfig) :=
  [ ("diagram_interpreter", ⟨"Interpret the architecture diagram.", false⟩),
    ("critic", ⟨"Critique the Azure architecture.", true⟩),
    ("fixer", ⟨"Fix the Azure architecture.", true⟩),
    ("visualizer", ⟨"Visualize the architecture as Mermaid.", false⟩),
    ("iac_generator", ⟨"Generate Bicep for the architecture.", true⟩) ]

/-- The refactored factory (lines 132-142): injected client and tool plus
the loaded agent configuration table. -/
structure AgentFactory where
  chat_client : ChatClient
  mcp_tool : MCPTool
  agent_config : List (String × RoleConfig)
deriving DecidableEq, Repr

/-- Refactored AgentFactory.create_agent (lines 144-157): looks the role
value up in the configuration (a missing key is a Python KeyError,
modelled unknownRole) and attaches the MCP tool iff uses_mcp. -/
def AgentFactory.create_agent (f : AgentFactory) (role : Demo.AgentRole) :
    Except DemoError ChatAgent :=
  match f.agent_config.lookup role.value with
  | none => .error (.unknownRole role.value)
  | some config =>
      .ok { chat_client := f.chat_client, instructions := config.instructions,
            name := role.value,
            tools := if config.uses_mcp then [f.mcp_tool] else [] }

/-- The two input strategies (lines 99-125). -/
inductive InputStrategy
  | textInput (text : String)
  | imageInput (image_path : String)
deriving DecidableEq, Repr

/-- requires_interpretation of each strategy. -/
def requires_interpretation : InputStrategy → Bool
  | .textInput _ => false
  | .imageInput _ => true

/-- get_input of each strategy; ImageInputStrategy (lines 118-122) uses
the same scheme check and loads local files, a failed read raising before
any agent is invoked. -/
def get_input (fs : FileSys) : InputStrategy → Except DemoError Payload
  | .textInput t => .ok (.text t)
  | .imageInput p =>
      if is_remote_uri p then .ok (.image (.uriContent p "image/png"))
      else
        match fs p with
        | some data => .ok (.image (.dataContent data "image/png"))
        | none => .error (.imageLoadFailure p)

/-- Outcome of AgentPipeline.run: the stage invocations in order and
either the results dict (an association list in insertion order) or the
propagated exception. -/
structure PipeOut where
  calls : List StageCall
  result : Except DemoError (List (String × String))
deriving Repr

/-- One stage body: create the agent (KeyError possible), invoke it, and
extract the text.  Returns the invocations it performed. -/
def invoke_stage (f : AgentFactory) (env : Env) (role : Demo.AgentRole) (p : Payload) :
    List StageCall × Except DemoError String :=
  match f.create_agent role with
  | .error e => ([], .error e)
  | .ok a =>
      match env.respond a p with
      | .error msg => ([⟨a, p⟩], .error (.invocationFailure msg))
      | .ok chunks => ([⟨a, p⟩], .ok (response_text chunks))

/-- Step 4 (lines 239-246): results["iac"]. -/
def generate_iac_stage (f : AgentFactory) (env : Env)
    (results : List (String × String)) (improved : String) : PipeOut :=
  let inv := invoke_stage f env .iac_generator (.text improved)
  match inv.2 with
  | .error e => ⟨inv.1, .error e⟩
  | .ok iac => ⟨inv.1, .ok (results ++ [("iac", iac)])⟩

/-- Step 3 (lines 230-237): results["diagram"], then step 4 on the same
improved text. -/
def visualize_stage (f : AgentFactory) (env : Env)
    (results : List (String × String)) (improved : String) : PipeOut :=
  let inv := invoke_stage f env .visualizer (.text improved)
  match inv.2 with
  | .error e => ⟨inv.1, .error e⟩
  | .ok diagram =>
      let rest := generate_iac_stage f env (results ++ [("diagram", diagram)]) improved
      ⟨inv.1 ++ rest.calls, rest.result⟩

/-- Step 2 (lines 220-228): the fixer prompt composed by the same
f-string, results["improved"], then step 3. -/
def fix_stage (f : AgentFactory) (env : Env) (results : List (String × String))
    (architecture_text critique : String) : PipeOut :=
  let inv := invoke_stage f env .fixer (.text (Demo.fixer_input architecture_text critique))
  match inv.2 with
  | .error e => ⟨inv.1, .error e⟩
  | .ok improved =>
      let rest := visualize_stage f env (results ++ [("improved", improved)]) improved
      ⟨inv.1 ++ rest.calls, rest.result⟩

/-- Step 1 (lines 211-218): results["critique"], then step 2. -/
def critique_stage (f : AgentFactory) (env : Env) (results : List (String × String))
    (architecture_text : String) : PipeOut :=
  let inv := invoke_stage f env .critic (.text architecture_text)
  match inv.2 with
  | .error e => ⟨inv.1, .error e⟩
  | .ok critique =>
      let rest := fix_stage f env (results ++ [("critique", critique)])
        architecture_text critique
      ⟨inv.1 ++ rest.calls, rest.result⟩

/-- AgentPipeline.run (lines 173-200): optional interpretation when the
strategy requires it, then critique, fix, visualize, generate IaC. -/
def pipeline_run (f : AgentFactory) (env : Env) (fs : FileSys)
    (strat : InputStrategy) : PipeOut :=
  if requires_interpretation strat then
    match get_input fs strat with
    | .error e => ⟨[], .error e⟩
    | .ok payload =>
        let inv := invoke_stage f env .diagram_interpreter payload
        match inv.2 with
        | .error e => ⟨inv.1, .error e⟩
        | .ok architecture_text =>
            let rest := critique_stage f env [("interpretation", architecture_text)]
              architecture_text
            ⟨inv.1 ++ rest.calls, rest.result⟩
  else
    match get_input fs strat with
    | .error e => ⟨[], .error e⟩
    | .ok payload =>
        critique_stage f env [("input", Demo.payload_text payload)]
          (Demo.payload_text payload)

/-- main of the refactored variant (lines 296-321): setup_dependencies
(line 288) constructs the MCP tool handle once, outside any context
manager, and nothing in the module ever closes or releases it; the
handle is then shared by every agent the factory creates. -/
def main_events (tbl : List (String × RoleConfig)) (client : ChatClient)
    (mcp : MCPTool) (env : Env) (fs : FileSys) (strat : InputStrategy) :
    List RunEvent :=
  let f : AgentFactory := ⟨client, mcp, tbl⟩
  [.acquireMCP]
    ++ (pipeline_run f env fs strat).calls.map (fun c => .stageInvoked c.agent.name)

end Refactored

/-- A completion engine that answers every invocation with one chunk. -/
def env_ok : Env := ⟨fun _ _ => .ok ["ok"]⟩

/-- A completion engine whose critic invocation raises. -/
def env_fail_critic : Env :=
  ⟨fun a _ => if a.name = "critic" then .error "boom" else .ok ["ok"]⟩

/-- A completion engine whose fixer invocation raises. -/
def env_fail_fixer : Env :=
  ⟨fun a _ => if a.name = "fixer" then .error "boom" else .ok ["ok"]⟩

/-- A file system with no readable files. -/
def fs_empty : FileSys := fun _ => none

/-- The refactored factory over the spec-modelled configuration. -/
def refFactory : Refactored.AgentFactory :=
  ⟨demo_chat_client, microsoft_learn_tool, Refactored.agent_prompts_yaml⟩

/-- A misconfigured agent table: the fixer entry was never registered. -/
def table_without_fixer : List (String × Refactored.RoleConfig) :=
  [ ("diagram_interpreter", ⟨"Interpret the architecture diagram.", false⟩),
    ("critic", ⟨"Critique the Azure architecture.", true⟩),
    ("visualizer", ⟨"Visualize the architecture as Mermaid.", false⟩),
    ("iac_generator", ⟨"Generate Bicep for the architecture.", true⟩) ]

/-- The refactored factory over the misconfigured table. -/
def refFactoryNoFixer : Refactored.AgentFactory :=
  ⟨demo_chat_client, microsoft_learn_tool, table_without_fixer⟩

/-- The role names of the stages a refactored run executes when it runs
to completion, in order. -/
def pipe_roles (strat : Refactored.InputStrategy) : List String :=
  (if Refactored.requires_interpretation strat then ["diagram_interpreter"] else [])
    ++ ["critic", "fixer", "visualizer", "iac_generator"]

/-- A completion engine whose critic invocation streams one fixed
critique chunk and every other invocation one placeholder chunk. -/
def env_c3 : Env :=
  ⟨fun a _ =>
    if a.name = "critic" then .ok ["- public DB endpoint is a risk"] else .ok ["x"]⟩

section Helpers

/-- Folding string concatenation over a list is unchanged by dropping the
empty strings. -/
theorem foldl_append_filter_ne_empty (l : List String) (acc : String) :
    (l.filter (fun c => c ≠ "")).foldl (fun r s => r ++ s) acc
      = l.foldl (fun r s => r ++ s) acc := by
  induction l generalizing acc with
  | nil => rfl
  | cons a t ih =>
    by_cases ha : a = ""
    · subst ha
      simpa [List.filter, String.append_empty] using ih acc
    · have h2 := ih (acc ++ a)
      simp only [ne_eq, decide_not] at h2
      simp [List.filter, ha, h2]

/-- The aggregated text is the join of all chunk texts, dropped empties
included. -/
theorem aggregate_eq_join (chunks : List String) :
    aggregate chunks = String.join chunks := by
  simpa [aggregate, forwarded_chunks, String.join] using
    foldl_append_filter_ne_empty chunks ""

/-- String append acts on the underlying character lists. -/
theorem string_data_append (a b : String) : (a ++ b).data = a.data ++ b.data := rfl

/-- The filename scheme is injective in the timestamp for a fixed
directory and step name. -/
theorem save_filename_timestamp_inj (d s t1 t2 : String)
    (h : save_filename d s t1 = save_filename d s t2) : t1 = t2 := by
  unfold save_filename at h
  have hd := congrArg String.data h
  simp only [string_data_append, List.append_assoc] at hd
  have h1 := List.append_cancel_left hd
  have h2 := List.append_cancel_left h1
  have h3 := List.append_cancel_left h2
  have h4 := List.append_cancel_left h3
  exact String.ext (List.append_cancel_right h4)

end Helpers

/-- C5 is corrected by this theorem: the aggregated text of a streamed
stage equals the ordered concatenation of all deltas, the forwarded
sequence is an in-order subsequence of the delta sequence in which every
non-empty delta occurs exactly as often as it arrived, and only the
empty deltas (chunks with falsy text, skipped by the if chunk.text guard)
are not forwarded. -/
theorem C5_stream_aggregation (chunks : List String) :
    aggregate chunks = String.join chunks
    ∧ List.Sublist (forwarded_chunks chunks) chunks
    ∧ (∀ c, c ≠ "" → (forwarded_chunks chunks).count c = chunks.count c)
    ∧ (∀ c, c ∈ forwarded_chunks chunks → c ≠ "") := by
  refine ⟨aggregate_eq_join chunks, List.filter_sublist chunks, ?_, ?_⟩
  · intro c hc
    exact List.count_filter (by simpa using hc)
  · intro c hc
    simpa using (List.mem_filter.1 hc).2

/-- C5 witness: the amended guarantees evaluated on the delta sequence
Sec, empty, uri, ty risk. -/
theorem C5_stream_aggregation_witness :
    aggregate ["Sec", "", "uri", "ty risk"] = String.join ["Sec", "", "uri", "ty risk"]
    ∧ (forwarded_chunks ["Sec", "", "uri", "ty risk"]).count "Sec"
        = (["Sec", "", "uri", "ty risk"] : List String).count "Sec" :=
  ⟨(C5_stream_aggregation ["Sec", "", "uri", "ty risk"]).1,
    (C5_stream_aggregation ["Sec", "", "uri", "ty risk"]).2.2.1 "Sec" (by decide)⟩

/-- C5 counterexample: an empty delta is not forwarded to the sink, so
the sink does not observe every delta exactly once; the aggregate still
equals the concatenation of all deltas. -/
theorem C5_counterexample :
    forwarded_chunks ["Sec", "", "urity risk"] ≠ ["Sec", "", "urity risk"]
    ∧ forwarded_chunks ["Sec", "", "urity risk"] = ["Sec", "urity risk"]
    ∧ aggregate ["Sec", "", "urity risk"] = "Security risk" := by
  refine ⟨by decide, rfl, by decide⟩

/-- C8 is corrected by this theorem: the round trip holds exactly — a
read through the filename a save call wrote yields the written content —
but artifacts are keyed by the pair of step name and wall-clock second,
not by run id: two save calls with the same step name collide exactly
when their runs carry the same second-granularity timestamp, whatever
their run identities. -/
theorem C8_artifact_store :
    (∀ (store : List (String × String)) (step_name content output_dir timestamp : String),
        read_file (save_response_to_file store step_name content output_dir timestamp)
            (save_filename output_dir step_name timestamp) = some content)
    ∧ (∀ (r1 r2 : RunContext) (step_name : String),
        run_artifact_location r1 step_name = run_artifact_location r2 step_name
          ↔ r1.timestamp = r2.timestamp) := by
  constructor
  · intro store step_name content output_dir timestamp
    simp [read_file, save_response_to_file, List.lookup]
  · intro r1 r2 step_name
    constructor
    · intro h
      exact save_filename_timestamp_inj "output" step_name r1.timestamp r2.timestamp h
    · intro h
      simp [run_artifact_location, h]

/-- C8 counterexample: two distinct runs saving the same step in the same
second write to the same artifact location, so locations are not keyed by
the run. -/
theorem C8_counterexample :
    (⟨"run-A", "20251012_120000"⟩ : RunContext) ≠ ⟨"run-B", "20251012_120000"⟩
    ∧ run_artifact_location ⟨"run-A", "20251012_120000"⟩ "step1_critic"
        = run_artifact_location ⟨"run-B", "20251012_120000"⟩ "step1_critic" := by
  exact ⟨by decide, rfl⟩

/-- C1 is corrected by this theorem: in the step7 factory the grounding
tool is attached iff the role is neither visualizer nor the diagram
interpreter, but in the top-level factory it is attached iff the role is
not the visualizer, so the diagram interpreter also carries it there. -/
theorem C1_grounding_tools :
    (∀ (f : Demo.AgentFactory) (role : Demo.AgentRole),
        f.mcp_tool ∈ (f.create_agent role).tools ↔ role ≠ Demo.AgentRole.visualizer)
    ∧ (∀ (f : Step7.AgentFactory) (role : String) (a : ChatAgent),
        f.create_agent role = .ok a →
        (f.mcp_tool ∈ a.tools ↔ (role ≠ "visualizer" ∧ role ≠ "diagram_interpreter"))) := by
  constructor
  · intro f role
    cases role <;> simp [Demo.AgentFactory.create_agent]
  · intro f role a h
    cases hl : Step7.prompts.lookup role with
    | none => simp [Step7.AgentFactory.create_agent, hl] at h
    | some instr =>
      simp only [Step7.AgentFactory.create_agent, hl, Except.ok.injEq] at h
      subst h
      by_cases hv : role = "visualizer"
      · simp [hv]
      · by_cases hd : role = "diagram_interpreter"
        · simp [hd]
        · simp [hv, hd]

/-- C1 witness: the critic agent carries the grounding tool in both the
top-level and the step7 factory. -/
theorem C1_grounding_tools_witness :
    demoFactory.mcp_tool ∈ (demoFactory.create_agent Demo.AgentRole.critic).tools
    ∧ ∃ a, (Step7.AgentFactory.mk demo_chat_client microsoft_learn_tool).create_agent "critic"
        = .ok a ∧ microsoft_learn_tool ∈ a.tools := by
  refine ⟨(C1_grounding_tools.1 demoFactory .critic).mpr (by decide), ⟨_, rfl, ?_⟩⟩
  exact (C1_grounding_tools.2 ⟨demo_chat_client, microsoft_learn_tool⟩ "critic" _ rfl).mpr
    (by decide)

/-- C1 counterexample: the top-level createAgent gives the diagram
interpreter a non-empty tool list holding the grounding handle, where the
claim requires an empty tool list for the INTERPRET role. -/
theorem C1_counterexample :
    (demoFactory.create_agent Demo.AgentRole.diagram_interpreter).tools
        = [microsoft_learn_tool]
    ∧ (demoFactory.create_agent Demo.AgentRole.diagram_interpreter).tools ≠ [] := by
  exact ⟨rfl, by decide⟩

/-- C10 is confirmed by this theorem: main selects image mode exactly
when the lowercased USE_IMAGE_MODE value equals true and the image path
is non-empty; in every other configuration it selects the text pipeline
on the hardcoded default architecture, with no error path. -/
theorem C10_mode_selection (e : OsEnv) :
    (Demo.select_input e = .imageMode (Demo.image_path e)
        ↔ (pyLower (e.use_image_mode_var.getD "false") = "true" ∧ Demo.image_path e ≠ ""))
    ∧ ((pyLower (e.use_image_mode_var.getD "false") ≠ "true" ∨ Demo.image_path e = "")
        → Demo.select_input e = .textMode Demo.demo_architecture) := by
  have hc : (Demo.use_image_mode e = true) ↔
      pyLower (e.use_image_mode_var.getD "false") = "true" := by
    simp [Demo.use_image_mode]
  by_cases h : pyLower (e.use_image_mode_var.getD "false") = "true" ∧ Demo.image_path e ≠ ""
  · constructor
    · simp [Demo.select_input, hc, h]
    · intro hn
      rcases hn with hn | hn
      · exact absurd h.1 hn
      · exact absurd hn h.2
  · have hsel : Demo.select_input e = .textMode Demo.demo_architecture := by
      rw [Demo.select_input, if_neg]
      intro hcon
      exact h ⟨hc.1 hcon.1, hcon.2⟩
    refine ⟨?_, fun _ => hsel⟩
    simp only [hsel]
    constructor
    · intro hcon
      cases hcon
    · intro hcon
      exact absurd hcon h

/-- C10 witness: USE_IMAGE_MODE set to TRUE with a path selects image
mode; set to true with an empty path silently selects the default text. -/
theorem C10_mode_selection_witness :
    Demo.select_input ⟨some "TRUE", some "diagram.png"⟩ = .imageMode "diagram.png"
    ∧ Demo.select_input ⟨some "true", some ""⟩ = .textMode Demo.demo_architecture := by
  constructor
  · exact (C10_mode_selection ⟨some "TRUE", some "diagram.png"⟩).1.mpr ⟨by decide, by decide⟩
  · exact (C10_mode_selection ⟨some "true", some ""⟩).2 (Or.inr (by decide))

/-- C6 is confirmed by this theorem: the remote-versus-local decision for
an image source is exactly the scheme check on the two url schemes —
when it holds the payload is a UriContent reference for every state of
the file system, so no local read occurs; otherwise the file bytes are
read into a DataContent payload, and when the local read fails, main
reports the load failure with an empty invocation trace, so the
interpreter and every other stage never execute. -/
theorem C6_image_input_resolution :
    (∀ (fs : FileSys) (p : String), is_remote_uri p = true →
        load_diagram_image fs p = .ok (.uriContent p "image/png"))
    ∧ (∀ (fs : FileSys) (p : String) (bytes : List UInt8), is_remote_uri p = false →
        fs p = some bytes →
        load_diagram_image fs p = .ok (.dataContent bytes "image/png"))
    ∧ (∀ (client : ChatClient) (env : Env) (fs : FileSys) (e : OsEnv) (p : String),
        Demo.select_input e = .imageMode p →
        is_remote_uri p = false → fs p = none →
        (Demo.main_run client env fs e).2.calls = []
        ∧ (Demo.main_run client env fs e).2.result = .error (.imageLoadFailure p)) := by
  refine ⟨?_, ?_, ?_⟩
  · intro fs p h
    simp [load_diagram_image, h]
  · intro fs p bytes h hb
    simp [load_diagram_image, h, hb]
  · intro client env fs e p hsel h hb
    have hload : load_diagram_image fs p = .error (.imageLoadFailure p) := by
      simp [load_diagram_image, h, hb]
    constructor <;> simp [Demo.main_run, Demo.main_body, hsel, hload]

/-- C6 witness: a remote url resolves to a reference on the empty file
system, and a missing local path makes main fail with the load failure
and no stage invocation. -/
theorem C6_image_input_resolution_witness :
    load_diagram_image fs_empty "https://example.com/d.png"
      = .ok (.uriContent "https://example.com/d.png" "image/png")
    ∧ (Demo.main_run demo_chat_client env_ok fs_empty
        ⟨some "true", some "missing.png"⟩).2.calls = []
    ∧ (Demo.main_run demo_chat_client env_ok fs_empty
        ⟨some "true", some "missing.png"⟩).2.result
      = .error (.imageLoadFailure "missing.png") := by
  refine ⟨C6_image_input_resolution.1 fs_empty _ (by decide), ?_, ?_⟩
  · exact (C6_image_input_resolution.2.2 demo_chat_client env_ok fs_empty
      ⟨some "true", some "missing.png"⟩ "missing.png" (by decide) (by decide) rfl).1
  · exact (C6_image_input_resolution.2.2 demo_chat_client env_ok fs_empty
      ⟨some "true", some "missing.png"⟩ "missing.png" (by decide) (by decide) rfl).2

section DemoWorkflowLemmas

/-- A completed step 4 invoked exactly the IaC generator. -/
theorem step4_ok_names (f : Demo.AgentFactory) (env : Env) (improved : String)
    (h : (Demo.step4_iac f env improved).result = .ok ()) :
    (Demo.step4_iac f env improved).calls.map (fun c => c.agent.name)
      = ["iac_generator"] := by
  cases h4 : env.respond (f.create_agent .iac_generator) (.text improved) with
  | error e => simp [Demo.step4_iac, h4] at h
  | ok chunks =>
    simp only [Demo.step4_iac, h4]
    simp [Demo.AgentFactory.create_agent, Demo.AgentRole.value]

/-- A completed step 3 invoked the visualizer then the IaC generator. -/
theorem step3_ok_names (f : Demo.AgentFactory) (env : Env) (improved : String)
    (h : (Demo.step3_visualize f env improved).result = .ok ()) :
    (Demo.step3_visualize f env improved).calls.map (fun c => c.agent.name)
      = ["visualizer", "iac_generator"] := by
  cases h3 : env.respond (f.create_agent .visualizer) (.text improved) with
  | error e => simp [Demo.step3_visualize, h3] at h
  | ok chunks =>
    have h4 : (Demo.step4_iac f env improved).result = .ok () := by
      simpa [Demo.step3_visualize, h3] using h
    simp only [Demo.step3_visualize, h3]
    simp [Demo.AgentFactory.create_agent, Demo.AgentRole.value,
      step4_ok_names f env improved h4]

/-- A completed step 2 invoked the fixer, the visualizer and the IaC
generator in order. -/
theorem step2_ok_names (f : Demo.AgentFactory) (env : Env) (arch critique : String)
    (h : (Demo.step2_fix f env arch critique).result = .ok ()) :
    (Demo.step2_fix f env arch critique).calls.map (fun c => c.agent.name)
      = ["fixer", "visualizer", "iac_generator"] := by
  cases h2 : env.respond (f.create_agent .fixer) (.text (Demo.fixer_input arch critique)) with
  | error e => simp [Demo.step2_fix, h2] at h
  | ok chunks =>
    have h3 : (Demo.step3_visualize f env (aggregate chunks)).result = .ok () := by
      simpa [Demo.step2_fix, h2] using h
    simp only [Demo.step2_fix, h2]
    simp [Demo.AgentFactory.create_agent, Demo.AgentRole.value,
      step3_ok_names f env (aggregate chunks) h3]

/-- A completed step 1 invoked critic, fixer, visualizer and IaC
generator in order. -/
theorem step1_ok_names (f : Demo.AgentFactory) (env : Env) (arch : String)
    (h : (Demo.step1_critic f env arch).result = .ok ()) :
    (Demo.step1_critic f env arch).calls.map (fun c => c.agent.name)
      = ["critic", "fixer", "visualizer", "iac_generator"] := by
  cases h1 : env.respond (f.create_agent .critic) (.text arch) with
  | error e => simp [Demo.step1_critic, h1] at h
  | ok chunks =>
    have h2 : (Demo.step2_fix f env arch (aggregate chunks)).result = .ok () := by
      simpa [Demo.step1_critic, h1] using h
    simp only [Demo.step1_critic, h1]
    simp [Demo.AgentFactory.create_agent, Demo.AgentRole.value,
      step2_ok_names f env arch (aggregate chunks) h2]

/-- The first invocation of step 2 is always the fixer on the composed
prompt, whatever the engine then does. -/
theorem step2_head (f : Demo.AgentFactory) (env : Env) (arch critique : String) :
    (Demo.step2_fix f env arch critique).calls[0]?
      = some ⟨f.create_agent .fixer, .text (Demo.fixer_input arch critique)⟩ := by
  cases h2 : env.respond (f.create_agent .fixer) (.text (Demo.fixer_input arch critique)) with
  | error e => simp [Demo.step2_fix, h2]
  | ok chunks => simp [Demo.step2_fix, h2]

end DemoWorkflowLemmas

/-- C2 is confirmed by this theorem: a completed run on a text input
invoked exactly the critic, fixer, visualizer and IaC generator stages,
once each and in that order; a completed run on an image input invoked
exactly those four preceded by a single diagram interpreter stage. -/
theorem C2_stage_sequence :
    (∀ (f : Demo.AgentFactory) (env : Env) (t : String),
        (Demo.run_sequential_workflow f env (.text t) false).result = .ok () →
        (Demo.run_sequential_workflow f env (.text t) false).calls.map (fun c => c.agent.name)
          = ["critic", "fixer", "visualizer", "iac_generator"])
    ∧ (∀ (f : Demo.AgentFactory) (env : Env) (img : ImagePayload),
        (Demo.run_sequential_workflow f env (.image img) true).result = .ok () →
        (Demo.run_sequential_workflow f env (.image img) true).calls.map (fun c => c.agent.name)
          = ["diagram_interpreter", "critic", "fixer", "visualizer", "iac_generator"]) := by
  constructor
  · intro f env t h
    have h1 : (Demo.step1_critic f env t).result = .ok () := by
      simpa [Demo.run_sequential_workflow, Demo.payload_text] using h
    simpa [Demo.run_sequential_workflow, Demo.payload_text] using step1_ok_names f env t h1
  · intro f env img h
    cases hi : env.respond (f.create_agent .diagram_interpreter) (.image img) with
    | error e => simp [Demo.run_sequential_workflow, hi] at h
    | ok chunks =>
      have h1 : (Demo.step1_critic f env (response_text chunks)).result = .ok () := by
        simpa [Demo.run_sequential_workflow, hi] using h
      simp only [Demo.run_sequential_workflow, if_true, hi]
      simp [Demo.AgentFactory.create_agent, Demo.AgentRole.value,
        step1_ok_names f env (response_text chunks) h1]

/-- C2 witness: with an engine that answers every stage, the text run
executes the four stages and the image run the five stages in order. -/
theorem C2_stage_sequence_witness :
    (Demo.run_sequential_workflow demoFactory env_ok (.text "arch") false).calls.map
        (fun c => c.agent.name) = ["critic", "fixer", "visualizer", "iac_generator"]
    ∧ (Demo.run_sequential_workflow demoFactory env_ok
          (.image (.uriContent "u" "image/png")) true).calls.map (fun c => c.agent.name)
        = ["diagram_interpreter", "critic", "fixer", "visualizer", "iac_generator"] :=
  ⟨C2_stage_sequence.1 demoFactory env_ok "arch" rfl,
    C2_stage_sequence.2 demoFactory env_ok (.uriContent "u" "image/png") rfl⟩

/-- C3 is confirmed by this theorem: whenever the critic stage was
invoked with some architecture text and its stream succeeded, the next
invocation is the fixer and its prompt is exactly the string Original,
newline, that text, blank line, Critique, newline, the aggregated
critique — with nothing interposed; this holds in text mode (stage
indices 0 and 1) and in image mode (stage indices 1 and 2) alike. -/
theorem C3_fix_prompt :
    (∀ (f : Demo.AgentFactory) (env : Env) (input_data : Payload) (t : String)
        (chunks : List String),
      (Demo.run_sequential_workflow f env input_data false).calls[0]?
        = some ⟨f.create_agent .critic, .text t⟩ →
      env.respond (f.create_agent .critic) (.text t) = .ok chunks →
      (Demo.run_sequential_workflow f env input_data false).calls[1]?
        = some ⟨f.create_agent .fixer,
            .text ("Original:\n" ++ t ++ "\n\nCritique:\n" ++ aggregate chunks)⟩)
    ∧ (∀ (f : Demo.AgentFactory) (env : Env) (input_data : Payload) (t : String)
        (chunks : List String),
      (Demo.run_sequential_workflow f env input_data true).calls[1]?
        = some ⟨f.create_agent .critic, .text t⟩ →
      env.respond (f.create_agent .critic) (.text t) = .ok chunks →
      (Demo.run_sequential_workflow f env input_data true).calls[2]?
        = some ⟨f.create_agent .fixer,
            .text ("Original:\n" ++ t ++ "\n\nCritique:\n" ++ aggregate chunks)⟩) := by
  constructor
  · intro f env input_data t chunks h0 hr
    have harch : Demo.payload_text input_data = t := by
      cases hc : env.respond (f.create_agent .critic) (.text (Demo.payload_text input_data)) with
      | error e =>
        simp only [Demo.run_sequential_workflow, Bool.false_eq_true, if_false,
          Demo.step1_critic, hc] at h0
        simpa using h0
      | ok ds =>
        simp only [Demo.run_sequential_workflow, Bool.false_eq_true, if_false,
          Demo.step1_critic, hc] at h0
        simpa using h0
    subst harch
    simp only [Demo.run_sequential_workflow, Bool.false_eq_true, if_false,
      Demo.step1_critic, hr]
    simpa [Demo.fixer_input] using
      step2_head f env (Demo.payload_text input_data) (aggregate chunks)
  · intro f env input_data t chunks h0 hr
    cases hi : env.respond (f.create_agent .diagram_interpreter) input_data with
    | error e =>
      simp only [Demo.run_sequential_workflow, if_true, hi] at h0
      simp at h0
    | ok ds0 =>
      have h0' : (Demo.step1_critic f env (response_text ds0)).calls[0]?
          = some ⟨f.create_agent .critic, .text t⟩ := by
        simpa only [Demo.run_sequential_workflow, if_true, hi, List.getElem?_cons_succ]
          using h0
      have harch : response_text ds0 = t := by
        cases hc : env.respond (f.create_agent .critic) (.text (response_text ds0)) with
        | error e =>
          simp only [Demo.step1_critic, hc] at h0'
          simpa using h0'
        | ok ds =>
          simp only [Demo.step1_critic, hc] at h0'
          simpa using h0'
      subst harch
      simp only [Demo.run_sequential_workflow, if_true, hi, Demo.step1_critic, hr,
        List.getElem?_cons_succ]
      simpa [Demo.fixer_input] using step2_head f env (response_text ds0) (aggregate chunks)

/-- C3 witness: with a critic stream yielding one concrete critique
chunk, the fixer prompt is the composed labeled string. -/
theorem C3_fix_prompt_witness :
    (Demo.run_sequential_workflow demoFactory env_c3 (.text "3-tier app") false).calls[1]?
      = some ⟨demoFactory.create_agent .fixer,
          .text ("Original:\n" ++ "3-tier app" ++ "\n\nCritique:\n"
            ++ aggregate ["- public DB endpoint is a risk"])⟩ :=
  C3_fix_prompt.1 demoFactory env_c3 (.text "3-tier app") "3-tier app"
    ["- public DB endpoint is a risk"] rfl rfl

section RefactoredPipelineLemmas

/-- A successfully created refactored agent is named by its role value. -/
theorem ref_create_agent_name (f : Refactored.AgentFactory) (role : Demo.AgentRole)
    (a : ChatAgent) (h : f.create_agent role = .ok a) : a.name = role.value := by
  cases hl : f.agent_config.lookup role.value with
  | none => simp [Refactored.AgentFactory.create_agent, hl] at h
  | some cfg =>
    simp only [Refactored.AgentFactory.create_agent, hl, Except.ok.injEq] at h
    subst h
    rfl

/-- The role value map is injective. -/
theorem role_value_inj (r1 r2 : Demo.AgentRole) (h : r1.value = r2.value) : r1 = r2 := by
  revert h
  cases r1 <;> cases r2 <;> decide

/-- Every invocation recorded by one refactored stage body belongs to a
role registered in the configuration. -/
theorem ref_invoke_calls (f : Refactored.AgentFactory) (env : Env) (role : Demo.AgentRole)
    (p : Payload) :
    ∀ c ∈ (Refactored.invoke_stage f env role p).1,
      ∃ cfg, f.agent_config.lookup role.value = some cfg ∧ c.agent.name = role.value := by
  intro c hc
  cases hcr : f.create_agent role with
  | error e => simp [Refactored.invoke_stage, hcr] at hc
  | ok a =>
    have hn := ref_create_agent_name f role a hcr
    cases hl : f.agent_config.lookup role.value with
    | none => simp [Refactored.AgentFactory.create_agent, hl] at hcr
    | some cfg =>
      refine ⟨cfg, rfl, ?_⟩
      cases hr : env.respond a p with
      | error msg =>
        simp only [Refactored.invoke_stage, hcr, hr, List.mem_singleton] at hc
        rw [hc]
        exact hn
      | ok chunks =>
        simp only [Refactored.invoke_stage, hcr, hr, List.mem_singleton] at hc
        rw [hc]
        exact hn

/-- The invocations of the IaC stage and all later stages (there are
none) are an ordered initial segment of the single IaC role. -/
theorem ref_iac_names_pre (f : Refactored.AgentFactory) (env : Env)
    (results : List (String × String)) (improved : String) :
    ∃ rest, (Refactored.generate_iac_stage f env results improved).calls.map
        (fun c => c.agent.name) ++ rest = ["iac_generator"] := by
  cases hc : f.create_agent .iac_generator with
  | error e =>
    exact ⟨["iac_generator"], by
      simp [Refactored.generate_iac_stage, Refactored.invoke_stage, hc]⟩
  | ok a =>
    have hn := ref_create_agent_name f .iac_generator a hc
    cases hr : env.respond a (.text improved) with
    | error msg =>
      exact ⟨[], by
        simp [Refactored.generate_iac_stage, Refactored.invoke_stage, hc, hr, hn,
          Demo.AgentRole.value]⟩
    | ok chunks =>
      exact ⟨[], by
        simp [Refactored.generate_iac_stage, Refactored.invoke_stage, hc, hr, hn,
          Demo.AgentRole.value]⟩

/-- The invocations of the visualize stage onward are an ordered initial
segment of visualizer then IaC generator. -/
theorem ref_vis_names_pre (f : Refactored.AgentFactory) (env : Env)
    (results : List (String × String)) (improved : String) :
    ∃ rest, (Refactored.visualize_stage f env results improved).calls.map
        (fun c => c.agent.name) ++ rest = ["visualizer", "iac_generator"] := by
  cases hc : f.create_agent .visualizer with
  | error e =>
    exact ⟨["visualizer", "iac_generator"], by
      simp [Refactored.visualize_stage, Refactored.invoke_stage, hc]⟩
  | ok a =>
    have hn := ref_create_agent_name f .visualizer a hc
    cases hr : env.respond a (.text improved) with
    | error msg =>
      exact ⟨["iac_generator"], by
        simp [Refactored.visualize_stage, Refactored.invoke_stage, hc, hr, hn,
          Demo.AgentRole.value]⟩
    | ok chunks =>
      obtain ⟨rest, hrest⟩ := ref_iac_names_pre f env
        (results ++ [("diagram", response_text chunks)]) improved
      refine ⟨rest, ?_⟩
      simp only [Refactored.visualize_stage, Refactored.invoke_stage, hc, hr]
      simpa [hn, Demo.AgentRole.value] using hrest

/-- The invocations of the fix stage onward are an ordered initial
segment of fixer, visualizer, IaC generator. -/
theorem ref_fix_names_pre (f : Refactored.AgentFactory) (env : Env)
    (results : List (String × String)) (architecture_text critique : String) :
    ∃ rest, (Refactored.fix_stage f env results architecture_text critique).calls.map
        (fun c => c.agent.name) ++ rest = ["fixer", "visualizer", "iac_generator"] := by
  cases hc : f.create_agent .fixer with
  | error e =>
    exact ⟨["fixer", "visualizer", "iac_generator"], by
      simp [Refactored.fix_stage, Refactored.invoke_stage, hc]⟩
  | ok a =>
    have hn := ref_create_agent_name f .fixer a hc
    cases hr : env.respond a (.text (Demo.fixer_input architecture_text critique)) with
    | error msg =>
      exact ⟨["visualizer", "iac_generator"], by
        simp [Refactored.fix_stage, Refactored.invoke_stage, hc, hr, hn,
          Demo.AgentRole.value]⟩
    | ok chunks =>
      obtain ⟨rest, hrest⟩ := ref_vis_names_pre f env
        (results ++ [("improved", response_text chunks)]) (response_text chunks)
      refine ⟨rest, ?_⟩
      simp only [Refactored.fix_stage, Refactored.invoke_stage, hc, hr]
      simpa [hn, Demo.AgentRole.value] using hrest

/-- The invocations of the critique stage onward are an ordered initial
segment of the four textual stages. -/
theorem ref_crit_names_pre (f : Refactored.AgentFactory) (env : Env)
    (results : List (String × String)) (architecture_text : String) :
    ∃ rest, (Refactored.critique_stage f env results architecture_text).calls.map
        (fun c => c.agent.name) ++ rest
      = ["critic", "fixer", "visualizer", "iac_generator"] := by
  cases hc : f.create_agent .critic with
  | error e =>
    exact ⟨["critic", "fixer", "visualizer", "iac_generator"], by
      simp [Refactored.critique_stage, Refactored.invoke_stage, hc]⟩
  | ok a =>
    have hn := ref_create_agent_name f .critic a hc
    cases hr : env.respond a (.text architecture_text) with
    | error msg =>
      exact ⟨["fixer", "visualizer", "iac_generator"], by
        simp [Refactored.critique_stage, Refactored.invoke_stage, hc, hr, hn,
          Demo.AgentRole.value]⟩
    | ok chunks =>
      obtain ⟨rest, hrest⟩ := ref_fix_names_pre f env
        (results ++ [("critique", response_text chunks)]) architecture_text
        (response_text chunks)
      refine ⟨rest, ?_⟩
      simp only [Refactored.critique_stage, Refactored.invoke_stage, hc, hr]
      simpa [hn, Demo.AgentRole.value] using hrest

end RefactoredPipelineLemmas

section RefactoredCompletionLemmas

/-- A completed IaC stage invoked exactly the IaC generator. -/
theorem ref_iac_ok_names (f : Refactored.AgentFactory) (env : Env)
    (results rs : List (String × String)) (improved : String)
    (h : (Refactored.generate_iac_stage f env results improved).result = .ok rs) :
    (Refactored.generate_iac_stage f env results improved).calls.map
        (fun c => c.agent.name) = ["iac_generator"] := by
  cases hc : f.create_agent .iac_generator with
  | error e => simp [Refactored.generate_iac_stage, Refactored.invoke_stage, hc] at h
  | ok a =>
    have hn := ref_create_agent_name f .iac_generator a hc
    cases hr : env.respond a (.text improved) with
    | error msg => simp [Refactored.generate_iac_stage, Refactored.invoke_stage, hc, hr] at h
    | ok chunks =>
      simp [Refactored.generate_iac_stage, Refactored.invoke_stage, hc, hr, hn,
        Demo.AgentRole.value]

/-- A completed visualize stage invoked the visualizer then the IaC
generator. -/
theorem ref_vis_ok_names (f : Refactored.AgentFactory) (env : Env)
    (results rs : List (String × String)) (improved : String)
    (h : (Refactored.visualize_stage f env results improved).result = .ok rs) :
    (Refactored.visualize_stage f env results improved).calls.map
        (fun c => c.agent.name) = ["visualizer", "iac_generator"] := by
  cases hc : f.create_agent .visualizer with
  | error e => simp [Refactored.visualize_stage, Refactored.invoke_stage, hc] at h
  | ok a =>
    have hn := ref_create_agent_name f .visualizer a hc
    cases hr : env.respond a (.text improved) with
    | error msg => simp [Refactored.visualize_stage, Refactored.invoke_stage, hc, hr] at h
    | ok chunks =>
      have h4 : (Refactored.generate_iac_stage f env
          (results ++ [("diagram", response_text chunks)]) improved).result = .ok rs := by
        simpa [Refactored.visualize_stage, Refactored.invoke_stage, hc, hr] using h
      simp only [Refactored.visualize_stage, Refactored.invoke_stage, hc, hr]
      simp [hn, Demo.AgentRole.value,
        ref_iac_ok_names f env (results ++ [("diagram", response_text chunks)]) rs improved h4]

/-- A completed fix stage invoked fixer, visualizer and IaC generator. -/
theorem ref_fix_ok_names (f : Refactored.AgentFactory) (env : Env)
    (results rs : List (String × String)) (architecture_text critique : String)
    (h : (Refactored.fix_stage f env results architecture_text critique).result = .ok rs) :
    (Refactored.fix_stage f env results architecture_text critique).calls.map
        (fun c => c.agent.name) = ["fixer", "visualizer", "iac_generator"] := by
  cases hc : f.create_agent .fixer with
  | error e => simp [Refactored.fix_stage, Refactored.invoke_stage, hc] at h
  | ok a =>
    have hn := ref_create_agent_name f .fixer a hc
    cases hr : env.respond a (.text (Demo.fixer_input architecture_text critique)) with
    | error msg => simp [Refactored.fix_stage, Refactored.invoke_stage, hc, hr] at h
    | ok chunks =>
      have h3 : (Refactored.visualize_stage f env
          (results ++ [("improved", response_text chunks)])
          (response_text chunks)).result = .ok rs := by
        simpa [Refactored.fix_stage, Refactored.invoke_stage, hc, hr] using h
      simp only [Refactored.fix_stage, Refactored.invoke_stage, hc, hr]
      simp [hn, Demo.AgentRole.value,
        ref_vis_ok_names f env (results ++ [("improved", response_text chunks)]) rs
          (response_text chunks) h3]

/-- A completed critique stage invoked the four textual stages in
order. -/
theorem ref_crit_ok_names (f : Refactored.AgentFactory) (env : Env)
    (results rs : List (String × String)) (architecture_text : String)
    (h : (Refactored.critique_stage f env results architecture_text).result = .ok rs) :
    (Refactored.critique_stage f env results architecture_text).calls.map
        (fun c => c.agent.name) = ["critic", "fixer", "visualizer", "iac_generator"] := by
  cases hc : f.create_agent .critic with
  | error e => simp [Refactored.critique_stage, Refactored.invoke_stage, hc] at h
  | ok a =>
    have hn := ref_create_agent_name f .critic a hc
    cases hr : env.respond a (.text architecture_text) with
    | error msg => simp [Refactored.critique_stage, Refactored.invoke_stage, hc, hr] at h
    | ok chunks =>
      have h2 : (Refactored.fix_stage f env
          (results ++ [("critique", response_text chunks)]) architecture_text
          (response_text chunks)).result = .ok rs := by
        simpa [Refactored.critique_stage, Refactored.invoke_stage, hc, hr] using h
      simp only [Refactored.critique_stage, Refactored.invoke_stage, hc, hr]
      simp [hn, Demo.AgentRole.value,
        ref_fix_ok_names f env (results ++ [("critique", response_text chunks)]) rs
          architecture_text (response_text chunks) h2]

end RefactoredCompletionLemmas

section RefactoredRegisteredLemmas

/-- Every invocation of the IaC stage belongs to a registered role. -/
theorem ref_iac_calls_reg (f : Refactored.AgentFactory) (env : Env)
    (results : List (String × String)) (improved : String) :
    ∀ c ∈ (Refactored.generate_iac_stage f env results improved).calls,
      ∃ (role : Demo.AgentRole) (cfg : Refactored.RoleConfig),
        f.agent_config.lookup role.value = some cfg ∧ c.agent.name = role.value := by
  intro c hc
  have hm : c ∈ (Refactored.invoke_stage f env .iac_generator (.text improved)).1 := by
    rcases h2 : (Refactored.invoke_stage f env .iac_generator (.text improved)).2 with e | rs <;>
      simpa [Refactored.generate_iac_stage, h2] using hc
  obtain ⟨cfg, hl, hn⟩ := ref_invoke_calls f env .iac_generator (.text improved) c hm
  exact ⟨.iac_generator, cfg, hl, hn⟩

/-- Every invocation of the visualize stage onward belongs to a
registered role. -/
theorem ref_vis_calls_reg (f : Refactored.AgentFactory) (env : Env)
    (results : List (String × String)) (improved : String) :
    ∀ c ∈ (Refactored.visualize_stage f env results improved).calls,
      ∃ (role : Demo.AgentRole) (cfg : Refactored.RoleConfig),
        f.agent_config.lookup role.value = some cfg ∧ c.agent.name = role.value := by
  intro c hc
  cases h2 : (Refactored.invoke_stage f env .visualizer (.text improved)).2 with
  | error e =>
    have hm : c ∈ (Refactored.invoke_stage f env .visualizer (.text improved)).1 := by
      simpa [Refactored.visualize_stage, h2] using hc
    obtain ⟨cfg, hl, hn⟩ := ref_invoke_calls f env .visualizer (.text improved) c hm
    exact ⟨.visualizer, cfg, hl, hn⟩
  | ok diagram =>
    simp only [Refactored.visualize_stage, h2] at hc
    rcases List.mem_append.1 hc with hm | hm
    · obtain ⟨cfg, hl, hn⟩ := ref_invoke_calls f env .visualizer (.text improved) c hm
      exact ⟨.visualizer, cfg, hl, hn⟩
    · exact ref_iac_calls_reg f env (results ++ [("diagram", diagram)]) improved c hm

/-- Every invocation of the fix stage onward belongs to a registered
role. -/
theorem ref_fix_calls_reg (f : Refactored.AgentFactory) (env : Env)
    (results : List (String × String)) (architecture_text critique : String) :
    ∀ c ∈ (Refactored.fix_stage f env results architecture_text critique).calls,
      ∃ (role : Demo.AgentRole) (cfg : Refactored.RoleConfig),
        f.agent_config.lookup role.value = some cfg ∧ c.agent.name = role.value := by
  intro c hc
  cases h2 : (Refactored.invoke_stage f env .fixer
      (.text (Demo.fixer_input architecture_text critique))).2 with
  | error e =>
    have hm : c ∈ (Refactored.invoke_stage f env .fixer
        (.text (Demo.fixer_input architecture_text critique))).1 := by
      simpa [Refactored.fix_stage, h2] using hc
    obtain ⟨cfg, hl, hn⟩ := ref_invoke_calls f env .fixer _ c hm
    exact ⟨.fixer, cfg, hl, hn⟩
  | ok improved =>
    simp only [Refactored.fix_stage, h2] at hc
    rcases List.mem_append.1 hc with hm | hm
    · obtain ⟨cfg, hl, hn⟩ := ref_invoke_calls f env .fixer _ c hm
      exact ⟨.fixer, cfg, hl, hn⟩
    · exact ref_vis_calls_reg f env (results ++ [("improved", improved)]) improved c hm

/-- Every invocation of the critique stage onward belongs to a
registered role. -/
theorem ref_crit_calls_reg (f : Refactored.AgentFactory) (env : Env)
    (results : List (String × String)) (architecture_text : String) :
    ∀ c ∈ (Refactored.critique_stage f env results architecture_text).calls,
      ∃ (role : Demo.AgentRole) (cfg : Refactored.RoleConfig),
        f.agent_config.lookup role.value = some cfg ∧ c.agent.name = role.value := by
  intro c hc
  cases h2 : (Refactored.invoke_stage f env .critic (.text architecture_text)).2 with
  | error e =>
    have hm : c ∈ (Refactored.invoke_stage f env .critic (.text architecture_text)).1 := by
      simpa [Refactored.critique_stage, h2] using hc
    obtain ⟨cfg, hl, hn⟩ := ref_invoke_calls f env .critic _ c hm
    exact ⟨.critic, cfg, hl, hn⟩
  | ok critique =>
    simp only [Refactored.critique_stage, h2] at hc
    rcases List.mem_append.1 hc with hm | hm
    · obtain ⟨cfg, hl, hn⟩ := ref_invoke_calls f env .critic _ c hm
      exact ⟨.critic, cfg, hl, hn⟩
    · exact ref_fix_calls_reg f env (results ++ [("critique", critique)])
        architecture_text critique c hm

/-- Every invocation of a refactored pipeline run belongs to a role
registered in the factory configuration. -/
theorem ref_pipeline_calls_reg (f : Refactored.AgentFactory) (env : Env) (fs : FileSys)
    (strat : Refactored.InputStrategy) :
    ∀ c ∈ (Refactored.pipeline_run f env fs strat).calls,
      ∃ (role : Demo.AgentRole) (cfg : Refactored.RoleConfig),
        f.agent_config.lookup role.value = some cfg ∧ c.agent.name = role.value := by
  intro c hc
  cases strat with
  | textInput t =>
    have hm : c ∈ (Refactored.critique_stage f env [("input", t)] t).calls := by
      simpa [Refactored.pipeline_run, Refactored.requires_interpretation,
        Refactored.get_input, Demo.payload_text] using hc
    exact ref_crit_calls_reg f env [("input", t)] t c hm
  | imageInput p =>
    cases hin : Refactored.get_input fs (.imageInput p) with
    | error e =>
      simp [Refactored.pipeline_run, Refactored.requires_interpretation, hin] at hc
    | ok payload =>
      cases h2 : (Refactored.invoke_stage f env .diagram_interpreter payload).2 with
      | error e =>
        have hm : c ∈ (Refactored.invoke_stage f env .diagram_interpreter payload).1 := by
          simpa [Refactored.pipeline_run, Refactored.requires_interpretation, hin, h2]
            using hc
        obtain ⟨cfg, hl, hn⟩ := ref_invoke_calls f env .diagram_interpreter payload c hm
        exact ⟨.diagram_interpreter, cfg, hl, hn⟩
      | ok arch =>
        simp only [Refactored.pipeline_run, Refactored.requires_interpretation, hin, h2]
          at hc
        rcases List.mem_append.1 hc with hm | hm
        · obtain ⟨cfg, hl, hn⟩ := ref_invoke_calls f env .diagram_interpreter payload c hm
          exact ⟨.diagram_interpreter, cfg, hl, hn⟩
        · exact ref_crit_calls_reg f env [("interpretation", arch)] arch c hm

end RefactoredRegisteredLemmas

/-- C4 is corrected by this theorem: the invocation trace of any run is
an order-correct initial segment of the fixed stage sequence, so once a
stage fails no later stage ever executes; a run returns the results dict
only when every stage completed; and when a stage fails (shown here for
a fixer failure after a completed critic) the caller receives exactly
the raw collaborator error, propagated unswallowed — but without the
completed StageResults and without a typed tag naming the failing stage,
both of which the code discards. -/
theorem C4_failure_propagation :
    (∀ (f : Refactored.AgentFactory) (env : Env) (fs : FileSys)
        (strat : Refactored.InputStrategy),
        ∃ rest, (Refactored.pipeline_run f env fs strat).calls.map
            (fun c => c.agent.name) ++ rest = pipe_roles strat)
    ∧ (∀ (f : Refactored.AgentFactory) (env : Env) (fs : FileSys)
        (strat : Refactored.InputStrategy) (rs : List (String × String)),
        (Refactored.pipeline_run f env fs strat).result = .ok rs →
        (Refactored.pipeline_run f env fs strat).calls.map (fun c => c.agent.name)
          = pipe_roles strat)
    ∧ (∀ (f : Refactored.AgentFactory) (env : Env) (fs : FileSys) (t msg : String)
        (chunks : List String) (ac af : ChatAgent),
        f.create_agent .critic = .ok ac →
        env.respond ac (.text t) = .ok chunks →
        f.create_agent .fixer = .ok af →
        env.respond af (.text (Demo.fixer_input t (response_text chunks))) = .error msg →
        (Refactored.pipeline_run f env fs (.textInput t)).result
            = .error (.invocationFailure msg)
        ∧ (Refactored.pipeline_run f env fs (.textInput t)).calls.map
            (fun c => c.agent.name) = ["critic", "fixer"]) := by
  refine ⟨?_, ?_, ?_⟩
  · intro f env fs strat
    cases strat with
    | textInput t =>
      obtain ⟨rest, hrest⟩ := ref_crit_names_pre f env [("input", t)] t
      refine ⟨rest, ?_⟩
      simpa [Refactored.pipeline_run, Refactored.requires_interpretation,
        Refactored.get_input, Demo.payload_text, pipe_roles] using hrest
    | imageInput p =>
      cases hin : Refactored.get_input fs (.imageInput p) with
      | error e =>
        exact ⟨pipe_roles (.imageInput p), by
          simp [Refactored.pipeline_run, Refactored.requires_interpretation, hin]⟩
      | ok payload =>
        cases hc : f.create_agent .diagram_interpreter with
        | error e =>
          exact ⟨pipe_roles (.imageInput p), by
            simp [Refactored.pipeline_run, Refactored.requires_interpretation, hin,
              Refactored.invoke_stage, hc]⟩
        | ok a =>
          have hn := ref_create_agent_name f .diagram_interpreter a hc
          cases hr : env.respond a payload with
          | error msg =>
            refine ⟨["critic", "fixer", "visualizer", "iac_generator"], ?_⟩
            simp [Refactored.pipeline_run, Refactored.requires_interpretation, hin,
              Refactored.invoke_stage, hc, hr, hn, Demo.AgentRole.value, pipe_roles]
          | ok ds =>
            obtain ⟨rest, hrest⟩ := ref_crit_names_pre f env
              [("interpretation", response_text ds)] (response_text ds)
            refine ⟨rest, ?_⟩
            simp only [Refactored.pipeline_run, Refactored.requires_interpretation, hin,
              Refactored.invoke_stage, hc, hr]
            simpa [hn, Demo.AgentRole.value, pipe_roles,
              Refactored.requires_interpretation] using hrest
  · intro f env fs strat rs h
    cases strat with
    | textInput t =>
      have h1 : (Refactored.critique_stage f env [("input", t)] t).result = .ok rs := by
        simpa [Refactored.pipeline_run, Refactored.requires_interpretation,
          Refactored.get_input, Demo.payload_text] using h
      simpa [Refactored.pipeline_run, Refactored.requires_interpretation,
        Refactored.get_input, Demo.payload_text, pipe_roles] using
        ref_crit_ok_names f env [("input", t)] rs t h1
    | imageInput p =>
      cases hin : Refactored.get_input fs (.imageInput p) with
      | error e =>
        simp [Refactored.pipeline_run, Refactored.requires_interpretation, hin] at h
      | ok payload =>
        cases hc : f.create_agent .diagram_interpreter with
        | error e =>
          simp [Refactored.pipeline_run, Refactored.requires_interpretation, hin,
            Refactored.invoke_stage, hc] at h
        | ok a =>
          have hn := ref_create_agent_name f .diagram_interpreter a hc
          cases hr : env.respond a payload with
          | error msg =>
            simp [Refactored.pipeline_run, Refactored.requires_interpretation, hin,
              Refactored.invoke_stage, hc, hr] at h
          | ok ds =>
            have h1 : (Refactored.critique_stage f env
                [("interpretation", response_text ds)] (response_text ds)).result
                = .ok rs := by
              simpa [Refactored.pipeline_run, Refactored.requires_interpretation, hin,
                Refactored.invoke_stage, hc, hr] using h
            simp only [Refactored.pipeline_run, Refactored.requires_interpretation, hin,
              Refactored.invoke_stage, hc, hr]
            simp [hn, Demo.AgentRole.value, pipe_roles, Refactored.requires_interpretation,
              ref_crit_ok_names f env [("interpretation", response_text ds)] rs
                (response_text ds) h1]
  · intro f env fs t msg chunks ac af hcc hcr hfc hfr
    have hnc := ref_create_agent_name f .critic ac hcc
    have hnf := ref_create_agent_name f .fixer af hfc
    constructor
    · simp [Refactored.pipeline_run, Refactored.requires_interpretation,
        Refactored.get_input, Demo.payload_text, Refactored.critique_stage,
        Refactored.fix_stage, Refactored.invoke_stage, hcc, hcr, hfc, hfr]
    · simp [Refactored.pipeline_run, Refactored.requires_interpretation,
        Refactored.get_input, Demo.payload_text, Refactored.critique_stage,
        Refactored.fix_stage, Refactored.invoke_stage, hcc, hcr, hfc, hfr, hnc, hnf,
        Demo.AgentRole.value]

/-- C4 witness: a fixer failure after a completed critic aborts the run
with the raw error and a two-stage trace. -/
theorem C4_failure_propagation_witness :
    (Refactored.pipeline_run refFactory env_fail_fixer fs_empty (.textInput "arch")).result
      = .error (.invocationFailure "boom")
    ∧ (Refactored.pipeline_run refFactory env_fail_fixer fs_empty
        (.textInput "arch")).calls.map (fun c => c.agent.name) = ["critic", "fixer"] :=
  C4_failure_propagation.2.2 refFactory env_fail_fixer fs_empty "arch" "boom" ["ok"]
    _ _ rfl rfl rfl rfl

/-- C4 counterexample: a run failing at the critic and a run failing at
the fixer return the identical caller-visible value, although they
completed zero and one stage respectively — so the caller does not
receive the completed StageResults and no typed reason identifies the
failing stage. -/
theorem C4_counterexample :
    (Refactored.pipeline_run refFactory env_fail_critic fs_empty (.textInput "arch")).result
      = .error (.invocationFailure "boom")
    ∧ (Refactored.pipeline_run refFactory env_fail_fixer fs_empty (.textInput "arch")).result
      = .error (.invocationFailure "boom")
    ∧ (Refactored.pipeline_run refFactory env_fail_critic fs_empty
        (.textInput "arch")).calls.length = 1
    ∧ (Refactored.pipeline_run refFactory env_fail_fixer fs_empty
        (.textInput "arch")).calls.length = 2
    ∧ (Refactored.pipeline_run refFactory env_fail_critic fs_empty (.textInput "arch")).result
      = (Refactored.pipeline_run refFactory env_fail_fixer fs_empty
        (.textInput "arch")).result :=
  ⟨rfl, rfl, rfl, rfl, rfl⟩

/-- C9 is corrected by this theorem: creating an agent for a role id
absent from the role table does fail with the unregistered-role error
(a Python KeyError), in the refactored table-driven factory and in the
step7 string-keyed factory alike, and a run never invokes an
unregistered role; but because each agent is created lazily at the start
of its own stage, the failure surfaces when that stage is reached, not
necessarily before every stage of the run — stages earlier in the
sequence may already have executed. -/
theorem C9_unknown_role :
    (∀ (f : Refactored.AgentFactory) (role : Demo.AgentRole),
        f.agent_config.lookup role.value = none →
        f.create_agent role = .error (.unknownRole role.value))
    ∧ (∀ (f : Step7.AgentFactory) (role : String),
        Step7.prompts.lookup role = none →
        f.create_agent role = .error (.unknownRole role))
    ∧ (∀ (f : Refactored.AgentFactory) (env : Env) (fs : FileSys)
        (strat : Refactored.InputStrategy) (role : Demo.AgentRole),
        f.agent_config.lookup role.value = none →
        ∀ c ∈ (Refactored.pipeline_run f env fs strat).calls,
          c.agent.name ≠ role.value) := by
  refine ⟨?_, ?_, ?_⟩
  · intro f role h
    simp [Refactored.AgentFactory.create_agent, h]
  · intro f role h
    simp [Step7.AgentFactory.create_agent, h]
  · intro f env fs strat role h c hc heq
    obtain ⟨r, cfg, hl, hn⟩ := ref_pipeline_calls_reg f env fs strat c hc
    have hrv : r.value = role.value := by rw [← hn, heq]
    have : r = role := role_value_inj r role hrv
    subst this
    rw [h] at hl
    cases hl

/-- C9 witness: the factory over the table missing the fixer entry fails
to create the fixer agent with the unregistered-role error, as does the
step7 factory for a role string outside its dict. -/
theorem C9_unknown_role_witness :
    Refactored.AgentFactory.create_agent refFactoryNoFixer .fixer
      = .error (.unknownRole "fixer")
    ∧ Step7.AgentFactory.create_agent ⟨demo_chat_client, microsoft_learn_tool⟩ "compliance"
      = .error (.unknownRole "compliance") :=
  ⟨C9_unknown_role.1 refFactoryNoFixer .fixer rfl,
    C9_unknown_role.2.1 ⟨demo_chat_client, microsoft_learn_tool⟩ "compliance" rfl⟩

/-- C9 counterexample: with the fixer missing from the role table, the
run does fail with the unregistered-role error, yet the critic stage has
already executed when it surfaces — the failure does not occur before
every stage of the run. -/
theorem C9_counterexample :
    (Refactored.pipeline_run refFactoryNoFixer env_ok fs_empty (.textInput "arch")).result
      = .error (.unknownRole "fixer")
    ∧ (Refactored.pipeline_run refFactoryNoFixer env_ok fs_empty
        (.textInput "arch")).calls.map (fun c => c.agent.name) = ["critic"] :=
  ⟨rfl, rfl⟩

section DemoAgentLemmas

/-- Every step 4 invocation uses a factory-created agent. -/
theorem d_step4_agents (f : Demo.AgentFactory) (env : Env) (improved : String) :
    ∀ c ∈ (Demo.step4_iac f env improved).calls, ∃ role, c.agent = f.create_agent role := by
  intro c hc
  cases h : env.respond (f.create_agent .iac_generator) (.text improved) with
  | error e =>
    simp only [Demo.step4_iac, h, List.mem_singleton] at hc
    exact ⟨.iac_generator, by rw [hc]⟩
  | ok chunks =>
    simp only [Demo.step4_iac, h, List.mem_singleton] at hc
    exact ⟨.iac_generator, by rw [hc]⟩

/-- Every step 3 onward invocation uses a factory-created agent. -/
theorem d_step3_agents (f : Demo.AgentFactory) (env : Env) (improved : String) :
    ∀ c ∈ (Demo.step3_visualize f env improved).calls,
      ∃ role, c.agent = f.create_agent role := by
  intro c hc
  cases h : env.respond (f.create_agent .visualizer) (.text improved) with
  | error e =>
    simp only [Demo.step3_visualize, h, List.mem_singleton] at hc
    exact ⟨.visualizer, by rw [hc]⟩
  | ok chunks =>
    simp only [Demo.step3_visualize, h, List.mem_cons] at hc
    rcases hc with hc | hc
    · exact ⟨.visualizer, by rw [hc]⟩
    · exact d_step4_agents f env improved c hc

/-- Every step 2 onward invocation uses a factory-created agent. -/
theorem d_step2_agents (f : Demo.AgentFactory) (env : Env) (arch critique : String) :
    ∀ c ∈ (Demo.step2_fix f env arch critique).calls,
      ∃ role, c.agent = f.create_agent role := by
  intro c hc
  cases h : env.respond (f.create_agent .fixer) (.text (Demo.fixer_input arch critique)) with
  | error e =>
    simp only [Demo.step2_fix, h, List.mem_singleton] at hc
    exact ⟨.fixer, by rw [hc]⟩
  | ok chunks =>
    simp only [Demo.step2_fix, h, List.mem_cons] at hc
    rcases hc with hc | hc
    · exact ⟨.fixer, by rw [hc]⟩
    · exact d_step3_agents f env (aggregate chunks) c hc

/-- Every step 1 onward invocation uses a factory-created agent. -/
theorem d_step1_agents (f : Demo.AgentFactory) (env : Env) (arch : String) :
    ∀ c ∈ (Demo.step1_critic f env arch).calls,
      ∃ role, c.agent = f.create_agent role := by
  intro c hc
  cases h : env.respond (f.create_agent .critic) (.text arch) with
  | error e =>
    simp only [Demo.step1_critic, h, List.mem_singleton] at hc
    exact ⟨.critic, by rw [hc]⟩
  | ok chunks =>
    simp only [Demo.step1_critic, h, List.mem_cons] at hc
    rcases hc with hc | hc
    · exact ⟨.critic, by rw [hc]⟩
    · exact d_step2_agents f env arch (aggregate chunks) c hc

/-- Every workflow invocation uses a factory-created agent. -/
theorem d_workflow_agents (f : Demo.AgentFactory) (env : Env) (input_data : Payload)
    (is_image : Bool) :
    ∀ c ∈ (Demo.run_sequential_workflow f env input_data is_image).calls,
      ∃ role, c.agent = f.create_agent role := by
  intro c hc
  cases is_image with
  | false =>
    simp only [Demo.run_sequential_workflow, Bool.false_eq_true, if_false] at hc
    exact d_step1_agents f env (Demo.payload_text input_data) c hc
  | true =>
    cases h : env.respond (f.create_agent .diagram_interpreter) input_data with
    | error e =>
      simp only [Demo.run_sequential_workflow, if_true, h, List.mem_singleton] at hc
      exact ⟨.diagram_interpreter, by rw [hc]⟩
    | ok chunks =>
      simp only [Demo.run_sequential_workflow, if_true, h, List.mem_cons] at hc
      rcases hc with hc | hc
      · exact ⟨.diagram_interpreter, by rw [hc]⟩
      · exact d_step1_agents f env (response_text chunks) c hc

/-- Every invocation of the main body uses a factory-created agent. -/
theorem d_main_body_agents (f : Demo.AgentFactory) (env : Env) (fs : FileSys) (e : OsEnv) :
    ∀ c ∈ (Demo.main_body f env fs e).calls, ∃ role, c.agent = f.create_agent role := by
  intro c hc
  cases hsel : Demo.select_input e with
  | imageMode p =>
    cases hload : load_diagram_image fs p with
    | error err => simp [Demo.main_body, hsel, hload] at hc
    | ok diagram_image =>
      simp only [Demo.main_body, hsel, hload] at hc
      exact d_workflow_agents f env (.image diagram_image) true c hc
  | textMode t =>
    simp only [Demo.main_body, hsel] at hc
    exact d_workflow_agents f env (.text t) false c hc

end DemoAgentLemmas

/-- C7 is corrected by this theorem about the top-level main: its event
trace is a single acquire before any stage, the stage invocations, and a
single release after every stage, with exactly one acquisition and one
release on the success path and the failure path alike, and every
invoked agent carries either no tool or exactly the one shared
microsoft_learn handle; the correction is needed because the refactored
variant never releases the handle at all (see the counterexample). -/
theorem C7_grounding_scope (client : ChatClient) (env : Env) (fs : FileSys) (e : OsEnv) :
    (Demo.main_run client env fs e).1
      = RunEvent.acquireMCP
          :: ((Demo.main_run client env fs e).2.calls.map
              (fun c => RunEvent.stageInvoked c.agent.name) ++ [RunEvent.releaseMCP])
    ∧ (Demo.main_run client env fs e).1.count RunEvent.acquireMCP = 1
    ∧ (Demo.main_run client env fs e).1.count RunEvent.releaseMCP = 1
    ∧ (Demo.main_run client env fs e).1.head? = some RunEvent.acquireMCP
    ∧ (Demo.main_run client env fs e).1.getLast? = some RunEvent.releaseMCP
    ∧ (∀ c ∈ (Demo.main_run client env fs e).2.calls,
        c.agent.tools = [] ∨ c.agent.tools = [microsoft_learn_tool]) := by
  have hev : (Demo.main_run client env fs e).1
      = RunEvent.acquireMCP
          :: ((Demo.main_run client env fs e).2.calls.map
              (fun c => RunEvent.stageInvoked c.agent.name) ++ [RunEvent.releaseMCP]) := by
    simp [Demo.main_run]
  have hmap0 : ∀ ev, (∀ n, ev ≠ RunEvent.stageInvoked n) →
      ((Demo.main_run client env fs e).2.calls.map
        (fun c => RunEvent.stageInvoked c.agent.name)).count ev = 0 := by
    intro ev hev'
    rw [List.count_eq_zero]
    intro hm
    rcases List.mem_map.1 hm with ⟨c, _, hcv⟩
    exact hev' c.agent.name hcv.symm
  refine ⟨hev, ?_, ?_, ?_, ?_, ?_⟩
  · rw [hev]
    have h0 := hmap0 RunEvent.acquireMCP (by intro n h; cases h)
    simp [List.count_cons, List.count_append, h0]
  · rw [hev]
    have h0 := hmap0 RunEvent.releaseMCP (by intro n h; cases h)
    simp [List.count_cons, List.count_append, h0]
  · rw [hev]
    rfl
  · rw [hev, ← List.cons_append]
    exact List.getLast?_concat _
  · intro c hc
    have hc' : c ∈ (Demo.main_body ⟨microsoft_learn_tool, client⟩ env fs e).calls := hc
    obtain ⟨role, hrole⟩ := d_main_body_agents ⟨microsoft_learn_tool, client⟩ env fs e c hc'
    rw [hrole]
    cases role <;> simp [Demo.AgentFactory.create_agent]

/-- C7 witness: one release event on a successful run and on a run whose
critic fails, and the shared-tool property at the critic invocation of
the default text run. -/
theorem C7_grounding_scope_witness :
    (Demo.main_run demo_chat_client env_ok fs_empty ⟨none, none⟩).1.count
        RunEvent.releaseMCP = 1
    ∧ (Demo.main_run demo_chat_client env_fail_critic fs_empty ⟨none, none⟩).1.count
        RunEvent.releaseMCP = 1
    ∧ ((⟨(⟨microsoft_learn_tool, demo_chat_client⟩ : Demo.AgentFactory).create_agent .critic,
          .text Demo.demo_architecture⟩ : StageCall).agent.tools = []
        ∨ ((⟨(⟨microsoft_learn_tool, demo_chat_client⟩ : Demo.AgentFactory).create_agent .critic,
          .text Demo.demo_architecture⟩ : StageCall).agent.tools = [microsoft_learn_tool])) :=
  ⟨(C7_grounding_scope demo_chat_client env_ok fs_empty ⟨none, none⟩).2.2.1,
    (C7_grounding_scope demo_chat_client env_fail_critic fs_empty ⟨none, none⟩).2.2.1,
    (C7_grounding_scope demo_chat_client env_ok fs_empty ⟨none, none⟩).2.2.2.2.2
      _ (List.mem_cons_self _ _)⟩

/-- C7 counterexample: the refactored variant acquires the handle and
completes a full successful run without ever emitting a release — the
guaranteed-release bracketing does not hold there. -/
theorem C7_counterexample :
    RunEvent.releaseMCP ∉ Refactored.main_events Refactored.agent_prompts_yaml
        demo_chat_client microsoft_learn_tool env_ok fs_empty (.textInput "arch")
    ∧ (Refactored.pipeline_run refFactory env_ok fs_empty (.textInput "arch")).result
      = .ok [("input", "arch"), ("critique", "ok"), ("improved", "ok"),
          ("diagram", "ok"), ("iac", "ok")] := by
  exact ⟨by decide, rfl⟩
